import Mathlib

/-
Verification of the expense-tracker backend (FastAPI + SQLAlchemy) against its
natural-language specification.  The relational state is shallowly embedded as
lists of rows; each request handler / background task of the source is
translated into a pure Lean function over that state.  Machine floats of the
source (amounts, thresholds, limits) are modelled as integers; dates as
(year, month, day) triples with lexicographic order.
-/
namespace ExpenseTracker

/-- Calendar date, modelling Python `datetime.date`; ordered lexicographically. -/
structure Date where
  year : Nat
  month : Nat
  day : Nat
deriving DecidableEq

/-- Date comparison, `a <= b` on Python dates. -/
def Date.le (a b : Date) : Bool :=
  Nat.blt a.year b.year ||
    (a.year == b.year &&
      (Nat.blt a.month b.month || (a.month == b.month && Nat.ble a.day b.day)))

/-- Leap-year test, as in Python `calendar`. -/
def isLeapYear (y : Nat) : Bool :=
  y % 4 == 0 && (y % 100 != 0 || y % 400 == 0)

/-- Number of days of a month, Python `calendar.monthrange(y, m)[1]`. -/
def daysInMonth (y m : Nat) : Nat :=
  if m == 2 then (if isLeapYear y then 29 else 28)
  else if m == 4 || m == 6 || m == 9 || m == 11 then 30
  else 31

/-- First day of the month of `today`, `today.replace(day=1)` in `register`. -/
def monthStart (today : Date) : Date :=
  ⟨today.year, today.month, 1⟩

/-- Last day of the month of `today`,
`today.replace(day=monthrange(today.year, today.month)[1])` in `register`. -/
def monthEnd (today : Date) : Date :=
  ⟨today.year, today.month, daysInMonth today.year today.month⟩

/-- Row of the `users` table (src/app/models/user.py). -/
structure User where
  id : Nat
  username : String
  email : String
  hashed_password : String
deriving DecidableEq

/-- Modelled from the spec: src/app/models/expense.py is not among the reviewed
sources; fields follow the spec data model (id, amount, date, user_id) and the
uses in src/app/routers/alerts.py. -/
structure Expense where
  id : Nat
  user_id : Nat
  amount : Int
  date : Date
deriving DecidableEq

/-- Modelled from the spec: src/app/models/alert.py is absent; fields follow
the spec data model (id, threshold, user_id) and src/app/routers/alerts.py. -/
structure Alert where
  id : Nat
  threshold : Int
  user_id : Nat
deriving DecidableEq

/-- Modelled from the spec: src/app/models/budget.py is absent; fields follow
the spec data model (id, amount_limit, start_date, end_date, user_id) and the
uses in src/app/routers/alerts.py (`check_budget`). -/
structure Budget where
  id : Nat
  user_id : Nat
  amount_limit : Int
  start_date : Date
  end_date : Date
deriving DecidableEq

/-- Modelled from the spec: src/app/models/notification.py is absent; fields
follow the spec data model (id, user_id, message, is_read); a freshly created
notification is unread (`is_read = false`), as required by the dedup/idempotence
behaviour of section 4.3 of the spec. -/
structure Notification where
  id : Nat
  user_id : Nat
  message : String
  is_read : Bool
deriving DecidableEq

/-- Modelled from the spec: src/app/models/category.py is absent; fields follow
the spec data model and the construction in `register` (name, description,
user_id). -/
structure Category where
  id : Nat
  name : String
  description : String
  user_id : Nat
deriving DecidableEq

/-- Modelled from the spec: src/app/models/category_budget.py is absent; fields
follow the spec data model and the construction in `register`; new rows default
to status "active" (the spec calls the default budget an active budget). -/
structure CategoryBudget where
  id : Nat
  category_id : Nat
  amount_limit : Int
  start_date : Date
  end_date : Date
  user_id : Nat
  status : String
deriving DecidableEq

/-- Modelled from the spec: src/app/models/group.py is absent; fields follow
the spec data model (id, name). -/
structure Group where
  id : Nat
  name : String
deriving DecidableEq

/-- Modelled from the spec: src/app/models/group_member.py is absent; fields
follow the spec data model (id, group_id, user_id, role) and the uses in
`delete_account`. -/
structure GroupMember where
  id : Nat
  group_id : Nat
  user_id : Nat
  role : String
deriving DecidableEq

/-- Row of the `group_expenses` table (src/app/models/group_expense.py);
its owning user is the payer (`payer_id`, relationship `user`). -/
structure GroupExpense where
  id : Nat
  group_id : Nat
  payer_id : Nat
  amount : Int
  description : String
deriving DecidableEq

/-- Modelled from the spec: src/app/models/expense_split.py is absent; fields
follow the spec data model (id, group_expense_id, user_id, share_amount). -/
structure ExpenseSplit where
  id : Nat
  group_expense_id : Nat
  user_id : Nat
  share_amount : Int
deriving DecidableEq

/-- The relational database state: one list per table, in insertion order
(`first()` without `order_by` is modelled as the head of the list), plus
auto-increment counters for the tables into which the embedded handlers
insert rows. -/
structure DB where
  users : List User
  expenses : List Expense
  alerts : List Alert
  budgets : List Budget
  categories : List Category
  categoryBudgets : List CategoryBudget
  notifications : List Notification
  groups : List Group
  groupMembers : List GroupMember
  groupExpenses : List GroupExpense
  expenseSplits : List ExpenseSplit
  nextUserId : Nat
  nextCategoryId : Nat
  nextCategoryBudgetId : Nat
  nextAlertId : Nat
  nextNotificationId : Nat
deriving DecidableEq

/-- An HTTP error response (`HTTPException`): status code and detail text. -/
structure HttpError where
  status : Nat
  detail : String
deriving DecidableEq

/-- Two-decimal rendering of an integral amount, Python format `:.2f`
specialised to the integer model of amounts. -/
def format2f (n : Int) : String :=
  toString n ++ ".00"

/-- The message rendered by `check_thresholds`
(f-string at src/app/routers/alerts.py:36). -/
def thresholdMessage (threshold adherence : Int) : String :=
  "Your alert threshold of " ++ toString threshold ++
    " has been exceeded by " ++ format2f adherence

/-- The message rendered by `check_budget`
(f-string at src/app/routers/alerts.py:85). -/
def budgetMessage (amount_limit overBy : Int) : String :=
  "You\x27ve exceeded your budget of " ++ toString amount_limit ++
    " by " ++ toString overBy ++ "."

/-- The dedup query shared by both evaluators: unread notifications of this
user with byte-identical message (src/app/routers/alerts.py:39-43 and 86-90). -/
def unreadDuplicates (db : DB) (uid : Nat) (message : String) : List Notification :=
  db.notifications.filter
    (fun n => n.user_id == uid && n.message == message && n.is_read == false)

/-- Insertion of a fresh unread Notification row,
`db.add(Notification(user_id=..., message=...)); db.commit()`. -/
def addNotification (db : DB) (uid : Nat) (message : String) : DB :=
  { db with
    notifications := db.notifications ++
      [{ id := db.nextNotificationId, user_id := uid,
         message := message, is_read := false }],
    nextNotificationId := db.nextNotificationId + 1 }

/-- The persist-and-push block shared verbatim by `check_thresholds`
(lines 38-53) and `check_budget` (lines 86-97): if no unread duplicate exists,
insert a fresh unread Notification row and push the message over the websocket
manager (the pushed message is the second component; `none` means no push). -/
def emitNotification (db : DB) (uid : Nat) (message : String) : DB × Option String :=
  match (unreadDuplicates db uid message).head? with
  | some _ => (db, none)
  | none => (addNotification db uid message, some message)

/-- Sum of all of a user's expense amounts, as computed by `check_thresholds`
(lines 29-30). -/
def totalExpenses (db : DB) (uid : Nat) : Int :=
  ((db.expenses.filter (fun e => e.user_id == uid)).map (fun e => e.amount)).sum

/-- Background task `check_thresholds` (src/app/routers/alerts.py:17-55).
Returns `none` when the Python code raises (no Alert row: `alert.threshold`
dereferences `None`); otherwise `some (db', push)` where `push` is the
websocket message sent, if any.  The guard `if adherence:` is Python numeric
truthiness: taken exactly when `adherence` is non-zero. -/
def check_thresholds (db : DB) (uid : Nat) : Option (DB × Option String) :=
  match (db.alerts.filter (fun a => a.user_id == uid)).head? with
  | none => none
  | some alert =>
      let adherence := totalExpenses db uid - alert.threshold
      if adherence ≠ 0 then
        some (emitNotification db uid (thresholdMessage alert.threshold adherence))
      else
        some (db, none)

/-- The SQL query of `check_budget` (lines 70-74), which is computed but never
used afterwards: the user's expenses with date inside the budget window. -/
def budgetQueryExpenses (db : DB) (uid : Nat) (b : Budget) : List Expense :=
  db.expenses.filter
    (fun e => e.user_id == uid &&
      (Date.le b.start_date e.date && Date.le e.date b.end_date))

/-- The list comprehension of `check_budget` (lines 76-80): amounts of
`budget.owner.expenses` (the relationship resolves to the Expense rows whose
`user_id` is the budget owner's id) whose date lies in the budget window. -/
def ownerExpensesInRange (db : DB) (b : Budget) : List Int :=
  (((db.expenses.filter (fun e => e.user_id == b.user_id)).filter
      (fun e => Date.le b.start_date e.date && Date.le e.date b.end_date)).map
    (fun e => e.amount))

/-- Background task `check_budget` (src/app/routers/alerts.py:58-99).
Returns `none` when the Python code raises (no Budget row: `budget.start_date`
dereferences `None`).  The unused SQL query of lines 70-74 is embedded
separately as `budgetQueryExpenses`; the comprehension actually summed is
`ownerExpensesInRange`.  `abs(remaining_amount)` of the f-string is `|·|`. -/
def check_budget (db : DB) (uid : Nat) : Option (DB × Option String) :=
  match (db.budgets.filter (fun b => b.user_id == uid)).head? with
  | none => none
  | some budget =>
      let remaining := budget.amount_limit - (ownerExpensesInRange db budget).sum
      if remaining < 0 then
        some (emitNotification db uid (budgetMessage budget.amount_limit |remaining|))
      else
        some (db, none)

/-- A unit of work handed to FastAPI `BackgroundTasks`. -/
inductive BackgroundTask where
  | checkThresholds (uid : Nat)
deriving DecidableEq

/-- Handler `GET /alerts/` (src/app/routers/alerts.py:147-165): returns the
user's alerts and unconditionally schedules `check_thresholds` for the user. -/
def get_alerts (db : DB) (uid : Nat) : List Alert × BackgroundTask :=
  (db.alerts.filter (fun a => a.user_id == uid), .checkThresholds uid)

/-- Runs a scheduled background task against a database state. -/
def run_task (db : DB) : BackgroundTask → Option (DB × Option String)
  | .checkThresholds uid => check_thresholds db uid

/-- Modelled from the spec: app/utils/security.py is not among the reviewed
sources; `hash(password) -> digest` is a deterministic black box (section 4.1),
embedded as an injective tagging function. -/
def hash_password (password : String) : String :=
  "hashed:" ++ password

/-- Modelled from the spec: app/utils/security.py is not among the reviewed
sources; `issue_access(claims) -> token` is a black box (section 4.1),
embedded as a deterministic function of the subject claim. -/
def create_access_token (sub : String) : String :=
  "access:" ++ sub

/-- Payload of a verified refresh token: optional subject claim (`sub`). -/
structure RefreshPayload where
  sub : Option String
deriving DecidableEq

/-- Response of the refresh-token endpoint: `{access_token, token_type}`. -/
structure TokenResponse where
  access_token : String
  token_type : String
deriving DecidableEq

/-- Handler `POST /auth/register` (src/app/routers/auth.py:93-187).  Checks
username then email for duplicates (400 each); otherwise inserts the User,
re-queries it by username and password hash, inserts the "Debt" Category, and
— unless an active CategoryBudget overlapping the current month already exists
for that fresh category — inserts a zero-limit CategoryBudget spanning the
current calendar month.  `today` is `date.today()`.  The unreachable failure
of the re-query (the source would dereference `None`) is surfaced as a 500,
as the host framework would. -/
def register (db : DB) (today : Date) (username email password : String) :
    DB × Except HttpError String :=
  match (db.users.filter (fun u => u.username == username)).head? with
  | some _ => (db, .error ⟨400, "Username already registered"⟩)
  | none =>
    match (db.users.filter (fun u => u.email == email)).head? with
    | some _ => (db, .error ⟨400, "Email already registered"⟩)
    | none =>
      let hashed := hash_password password
      let new_user : User := ⟨db.nextUserId, username, email, hashed⟩
      let db1 := { db with users := db.users ++ [new_user],
                           nextUserId := db.nextUserId + 1 }
      match (db1.users.filter
          (fun u => u.username == username && u.hashed_password == hashed)).head? with
      | none => (db1, .error ⟨500, "Internal Server Error"⟩)
      | some db_user =>
        let new_category : Category :=
          ⟨db1.nextCategoryId, "Debt", "For all debts", db_user.id⟩
        let db2 := { db1 with categories := db1.categories ++ [new_category],
                              nextCategoryId := db1.nextCategoryId + 1 }
        let start_date := monthStart today
        let end_date := monthEnd today
        match (db2.categoryBudgets.filter (fun cb =>
            cb.category_id == new_category.id && cb.user_id == db_user.id &&
            cb.status == "active" && Date.le cb.start_date end_date &&
            Date.le start_date cb.end_date)).head? with
        | some _ => (db2, .ok "Registered successfully")
        | none =>
          let new_budget : CategoryBudget :=
            ⟨db2.nextCategoryBudgetId, new_category.id, 0, start_date, end_date,
             db_user.id, "active"⟩
          ({ db2 with
              categoryBudgets := db2.categoryBudgets ++ [new_budget],
              nextCategoryBudgetId := db2.nextCategoryBudgetId + 1 },
            .ok "Registered successfully")

/-- Detail text of the duplicate-threshold rejection
(src/app/routers/alerts.py:133). -/
def duplicateAlertDetail : String :=
  "An alert with the same threshold already exists. Please delete it first to create a new one."

/-- Handler `POST /alerts/` (src/app/routers/alerts.py:101-145): rejects a
duplicate threshold for the same user with 400, otherwise inserts the alert
and responds 201 (the route also schedules `check_thresholds`, modelled by
`run_task` / `BackgroundTask.checkThresholds`). -/
def create_alert (db : DB) (uid : Nat) (threshold : Int) :
    DB × Except HttpError (Alert × Nat) :=
  match (db.alerts.filter
      (fun a => a.user_id == uid && a.threshold == threshold)).head? with
  | some _ => (db, .error ⟨400, duplicateAlertDetail⟩)
  | none =>
      let alert : Alert := ⟨db.nextAlertId, threshold, uid⟩
      ({ db with alerts := db.alerts ++ [alert],
                 nextAlertId := db.nextAlertId + 1 },
        .ok (alert, 201))

/-- Handler `POST /auth/user/refresh-token` (src/app/routers/auth.py:250-282).
Modelled from the spec for the missing app/utils/security.py:
`verify_refresh_token` yields claims or fails with InvalidToken, and an
invalid refresh token surfaces as 401 (section 6).  A payload without `sub`
or an unknown username also yields 401; otherwise a fresh access token with
token_type "bearer" is returned. -/
def get_refresh_token (verify : String → Except Unit RefreshPayload)
    (db : DB) (token : String) : Except HttpError TokenResponse :=
  match verify token with
  | .error _ => .error ⟨401, "Invalid refresh token"⟩
  | .ok payload =>
    match payload.sub with
    | none => .error ⟨401, "Invalid refresh token payload"⟩
    | some username =>
      match (db.users.filter (fun u => u.username == username)).head? with
      | none => .error ⟨401, "User not found"⟩
      | some _ => .ok ⟨create_access_token username, "bearer"⟩

/-- Deletion of a User row with the cascades declared on the relationships of
src/app/models/user.py (`cascade="all, delete-orphan"` towards Expense,
Budget, Category, Alert, Notification, GroupMember, GroupExpense,
ExpenseSplit; a GroupExpense is owned by its payer). -/
def cascadeDeleteUser (db : DB) (uid : Nat) : DB :=
  { db with
    users := db.users.filter (fun u => u.id != uid),
    expenses := db.expenses.filter (fun e => e.user_id != uid),
    budgets := db.budgets.filter (fun b => b.user_id != uid),
    categories := db.categories.filter (fun c => c.user_id != uid),
    alerts := db.alerts.filter (fun a => a.user_id != uid),
    notifications := db.notifications.filter (fun n => n.user_id != uid),
    groupMembers := db.groupMembers.filter (fun gm => gm.user_id != uid),
    groupExpenses := db.groupExpenses.filter (fun ge => ge.payer_id != uid),
    expenseSplits := db.expenseSplits.filter (fun es => es.user_id != uid) }

/-- Handler `DELETE /auth/account` (src/app/routers/auth.py:285-332) for the
authenticated `user`.  For each of the user's "admin" GroupMember rows it
deletes every Group whose id equals `group_member.id` — the membership row's
own primary key, exactly as the source reads (`Group.id == group_member.id`),
not `group_member.group_id`.  It then re-queries the user id by username and
email and deletes that User row with its cascades.  `none` stands for the
branches in which the source raises (`first()[0]` on no row; the dead 404
branch). -/
def delete_account (db : DB) (user : User) : Option DB :=
  let admin_members := db.groupMembers.filter
    (fun gm => gm.user_id == user.id && gm.role == "admin")
  let db1 := admin_members.foldl
    (fun d gm => { d with groups := d.groups.filter (fun g => g.id != gm.id) }) db
  match (db1.users.filter
      (fun u => u.username == user.username && u.email == user.email)).head? with
  | none => none
  | some found =>
    match (db1.users.filter (fun u => u.id == found.id)).head? with
    | none => none
    | some target => some (cascadeDeleteUser db1 target.id)

/-- Handler `DELETE /admin/users/{user_id}` (src/app/routers/admin.py:76-102):
404 when the user does not exist; otherwise explicitly deletes the user's
expenses, budgets, alerts and categories, then deletes the User row, whose
declared cascades remove the remaining owned rows. -/
def delete_user (db : DB) (uid : Nat) : Except HttpError DB :=
  match (db.users.filter (fun u => u.id == uid)).head? with
  | none => .error ⟨404, "User not found"⟩
  | some _ =>
      let db1 := { db with
        expenses := db.expenses.filter (fun e => e.user_id != uid),
        budgets := db.budgets.filter (fun b => b.user_id != uid),
        alerts := db.alerts.filter (fun a => a.user_id != uid),
        categories := db.categories.filter (fun c => c.user_id != uid) }
      .ok (cascadeDeleteUser db1 uid)

/-- No row owned by user `uid` remains in any of the eight owned tables
(cascade completeness, spec section 3). -/
def noOwnedRows (db : DB) (uid : Nat) : Prop :=
  (∀ e ∈ db.expenses, e.user_id ≠ uid) ∧
  (∀ b ∈ db.budgets, b.user_id ≠ uid) ∧
  (∀ c ∈ db.categories, c.user_id ≠ uid) ∧
  (∀ a ∈ db.alerts, a.user_id ≠ uid) ∧
  (∀ n ∈ db.notifications, n.user_id ≠ uid) ∧
  (∀ gm ∈ db.groupMembers, gm.user_id ≠ uid) ∧
  (∀ ge ∈ db.groupExpenses, ge.payer_id ≠ uid) ∧
  (∀ es ∈ db.expenseSplits, es.user_id ≠ uid)

/-- The username column is declared unique (src/app/models/user.py). -/
def uniqueUsernames (db : DB) : Prop :=
  ∀ u1 ∈ db.users, ∀ u2 ∈ db.users, u1.username = u2.username → u1 = u2

/-- A database state with a single user who has no alerts and no budgets. -/
def dbNoRows : DB :=
  { users := [⟨1, "alice", "a@x.com", "h1"⟩], expenses := [], alerts := [],
    budgets := [], categories := [], categoryBudgets := [], notifications := [],
    groups := [], groupMembers := [], groupExpenses := [], expenseSplits := [],
    nextUserId := 2, nextCategoryId := 1, nextCategoryBudgetId := 1,
    nextAlertId := 1, nextNotificationId := 1 }

/-- A database state exercising `check_budget`: one budget, expenses inside
and outside its window. -/
def dbBudgetW : DB :=
  { users := [⟨1, "alice", "a@x.com", "h1"⟩],
    expenses := [⟨1, 1, 30, ⟨2024, 6, 15⟩⟩, ⟨2, 1, 5, ⟨2023, 6, 15⟩⟩,
                 ⟨3, 2, 7, ⟨2024, 6, 16⟩⟩],
    alerts := [], budgets := [⟨1, 1, 10, ⟨2024, 1, 1⟩, ⟨2024, 12, 31⟩⟩],
    categories := [], categoryBudgets := [], notifications := [],
    groups := [], groupMembers := [], groupExpenses := [], expenseSplits := [],
    nextUserId := 2, nextCategoryId := 1, nextCategoryBudgetId := 1,
    nextAlertId := 1, nextNotificationId := 1 }

/-- The budget row of `dbBudgetW`. -/
def budgetW : Budget := ⟨1, 1, 10, ⟨2024, 1, 1⟩, ⟨2024, 12, 31⟩⟩

/-- State for the C2 counterexample: alert threshold 10, expenses totalling 30
(overage 20), and an unread notification with the identical message already
present. -/
def dbThreshDup : DB :=
  { users := [⟨1, "alice", "a@x.com", "h1"⟩],
    expenses := [⟨1, 1, 30, ⟨2024, 6, 15⟩⟩],
    alerts := [⟨1, 10, 1⟩], budgets := [], categories := [],
    categoryBudgets := [],
    notifications := [⟨1, 1, thresholdMessage 10 20, false⟩],
    groups := [], groupMembers := [], groupExpenses := [], expenseSplits := [],
    nextUserId := 2, nextCategoryId := 1, nextCategoryBudgetId := 1,
    nextAlertId := 2, nextNotificationId := 2 }

/-- State for the C2 witness: alert threshold 10 and expenses totalling 4,
an under-threshold state (overage -6), with no prior notifications. -/
def dbThreshUnder : DB :=
  { users := [⟨1, "alice", "a@x.com", "h1"⟩],
    expenses := [⟨1, 1, 4, ⟨2024, 6, 15⟩⟩],
    alerts := [⟨1, 10, 1⟩], budgets := [], categories := [],
    categoryBudgets := [], notifications := [],
    groups := [], groupMembers := [], groupExpenses := [], expenseSplits := [],
    nextUserId := 2, nextCategoryId := 1, nextCategoryBudgetId := 1,
    nextAlertId := 2, nextNotificationId := 1 }

/-- State for the C1 counterexample: budget limit 10, one in-range expense of
30 (overage 20), and an unread notification with the identical message already
present. -/
def dbBudgetDup : DB :=
  { users := [⟨1, "alice", "a@x.com", "h1"⟩],
    expenses := [⟨1, 1, 30, ⟨2024, 6, 15⟩⟩],
    alerts := [], budgets := [⟨1, 1, 10, ⟨2024, 1, 1⟩, ⟨2024, 12, 31⟩⟩],
    categories := [], categoryBudgets := [],
    notifications := [⟨1, 1, budgetMessage 10 20, false⟩],
    groups := [], groupMembers := [], groupExpenses := [], expenseSplits := [],
    nextUserId := 2, nextCategoryId := 1, nextCategoryBudgetId := 1,
    nextAlertId := 1, nextNotificationId := 2 }

/-- The refresh-token verifier used by the C7 witness: accepts exactly the
token "good" with subject "alice". -/
def verifyW : String → Except Unit RefreshPayload :=
  fun t => if t == "good" then .ok ⟨some "alice"⟩ else .error ()

/-- A state with rows of two users in every owned table, user 1 being a group
admin. -/
def dbOwned : DB :=
  { users := [⟨1, "alice", "a@x.com", "h1"⟩, ⟨2, "bob", "b@x.com", "h2"⟩],
    expenses := [⟨1, 1, 30, ⟨2024, 6, 15⟩⟩, ⟨2, 2, 9, ⟨2024, 6, 16⟩⟩],
    alerts := [⟨1, 10, 1⟩, ⟨2, 11, 2⟩],
    budgets := [⟨1, 1, 10, ⟨2024, 1, 1⟩, ⟨2024, 12, 31⟩⟩],
    categories := [⟨1, "Debt", "For all debts", 1⟩],
    categoryBudgets := [],
    notifications := [⟨1, 1, "m", false⟩],
    groups := [⟨3, "team"⟩, ⟨7, "other"⟩],
    groupMembers := [⟨7, 3, 1, "admin"⟩, ⟨8, 3, 2, "member"⟩],
    groupExpenses := [⟨1, 3, 1, 12, "pizza"⟩],
    expenseSplits := [⟨1, 1, 1, 6⟩, ⟨2, 1, 2, 6⟩],
    nextUserId := 3, nextCategoryId := 2, nextCategoryBudgetId := 1,
    nextAlertId := 3, nextNotificationId := 2 }

/-- The requesting user of the C6 failing input. -/
def aliceAdmin : User := ⟨1, "alice", "a@x.com", "h1"⟩

/-- The C6 failing input: alice is the "admin" of group 2 through GroupMember
row id 5; a group with id 5 — which she does not administer — also exists. -/
def dbWrongGroup : DB :=
  { users := [aliceAdmin], expenses := [], alerts := [], budgets := [],
    categories := [], categoryBudgets := [], notifications := [],
    groups := [⟨2, "team"⟩, ⟨5, "other"⟩],
    groupMembers := [⟨5, 2, 1, "admin"⟩],
    groupExpenses := [], expenseSplits := [],
    nextUserId := 2, nextCategoryId := 1, nextCategoryBudgetId := 1,
    nextAlertId := 1, nextNotificationId := 1 }

@[simp] theorem addNotification_alerts (db : DB) (uid : Nat) (m : String) :
    (addNotification db uid m).alerts = db.alerts := rfl

@[simp] theorem addNotification_budgets (db : DB) (uid : Nat) (m : String) :
    (addNotification db uid m).budgets = db.budgets := rfl

@[simp] theorem addNotification_expenses (db : DB) (uid : Nat) (m : String) :
    (addNotification db uid m).expenses = db.expenses := rfl

@[simp] theorem addNotification_notifications (db : DB) (uid : Nat) (m : String) :
    (addNotification db uid m).notifications = db.notifications ++
      [{ id := db.nextNotificationId, user_id := uid,
         message := m, is_read := false }] := rfl

/-- The head of a list, when it exists, is a member. -/
theorem mem_of_head?_some {α : Type} {l : List α} {a : α} (h : l.head? = some a) :
    a ∈ l := by
  cases l with
  | nil => simp at h
  | cons b t =>
      simp only [List.head?_cons, Option.some.injEq] at h
      exact h ▸ List.mem_cons_self b t

/-- When no unread duplicate exists, `emitNotification` inserts a fresh unread
row and pushes the message. -/
theorem emitNotification_fresh (db : DB) (uid : Nat) (m : String)
    (h : unreadDuplicates db uid m = []) :
    emitNotification db uid m = (addNotification db uid m, some m) := by
  simp [emitNotification, h]

/-- When an unread duplicate exists, `emitNotification` changes nothing and
pushes nothing. -/
theorem emitNotification_dup (db : DB) (uid : Nat) (m : String)
    (h : unreadDuplicates db uid m ≠ []) :
    emitNotification db uid m = (db, none) := by
  unfold emitNotification
  cases hh : (unreadDuplicates db uid m).head? with
  | none => exact absurd (List.head?_eq_none_iff.mp hh) h
  | some n => rfl

/-- Reduction of `check_thresholds` once the Alert row is found. -/
theorem check_thresholds_eq (db : DB) (uid : Nat) (a : Alert)
    (h : (db.alerts.filter (fun x => x.user_id == uid)).head? = some a) :
    check_thresholds db uid =
      (if totalExpenses db uid - a.threshold ≠ 0 then
        some (emitNotification db uid
          (thresholdMessage a.threshold (totalExpenses db uid - a.threshold)))
      else some (db, none)) := by
  unfold check_thresholds
  rw [h]

/-- Reduction of `check_budget` once the Budget row is found. -/
theorem check_budget_eq (db : DB) (uid : Nat) (b : Budget)
    (h : (db.budgets.filter (fun x => x.user_id == uid)).head? = some b) :
    check_budget db uid =
      (if b.amount_limit - (ownerExpensesInRange db b).sum < 0 then
        some (emitNotification db uid
          (budgetMessage b.amount_limit
            |b.amount_limit - (ownerExpensesInRange db b).sum|))
      else some (db, none)) := by
  unfold check_budget
  rw [h]

/-- C9: the background evaluators are partial in the absence of the looked-up
row: with no Alert row for the user, the task scheduled by `get_alerts`
(which schedules `check_thresholds` unconditionally) raises instead of doing
nothing, and with no Budget row `check_budget` raises likewise. -/
theorem evaluators_partial_on_missing_rows (db : DB) (uid : Nat) :
    (db.alerts.filter (fun a => a.user_id == uid) = [] →
      run_task db (get_alerts db uid).2 = none) ∧
    (db.budgets.filter (fun b => b.user_id == uid) = [] →
      check_budget db uid = none) ∧
    (get_alerts db uid).2 = BackgroundTask.checkThresholds uid := by
  refine ⟨fun h => ?_, fun h => ?_, rfl⟩
  · simp [run_task, get_alerts, check_thresholds, h]
  · simp [check_budget, h]

/-- Witness for C9 at a concrete state: a user with zero alerts and zero
budgets makes both scheduled evaluators raise. -/
theorem evaluators_partial_witness :
    run_task dbNoRows (get_alerts dbNoRows 1).2 = none ∧
      check_budget dbNoRows 1 = none :=
  ⟨(evaluators_partial_on_missing_rows dbNoRows 1).1 (by decide),
   (evaluators_partial_on_missing_rows dbNoRows 1).2.1 (by decide)⟩

/-- C10: inside `check_budget`, the unused SQL range query and the list
comprehension over `budget.owner.expenses` select the same expense amounts:
equal as multisets, hence equal sums. -/
theorem budget_query_comprehension_agree (db : DB) (uid : Nat) (b : Budget)
    (h : (db.budgets.filter (fun x => x.user_id == uid)).head? = some b) :
    ((budgetQueryExpenses db uid b).map (fun e => e.amount) : Multiset Int) =
      (ownerExpensesInRange db b : Multiset Int) ∧
    ((budgetQueryExpenses db uid b).map (fun e => e.amount)).sum =
      (ownerExpensesInRange db b).sum := by
  have hb : b.user_id = uid := by
    have hmem := mem_of_head?_some h
    exact eq_of_beq (List.mem_filter.mp hmem).2
  have hlist : (budgetQueryExpenses db uid b).map (fun e => e.amount) =
      ownerExpensesInRange db b := by
    subst hb
    unfold budgetQueryExpenses ownerExpensesInRange
    rw [List.filter_filter]
    congr 1
    apply List.filter_congr
    intro e _
    rw [Bool.and_comm]
  exact ⟨by rw [hlist], by rw [hlist]⟩

/-- Witness for C10 at a concrete state. -/
theorem budget_query_comprehension_agree_witness :
    ((budgetQueryExpenses dbBudgetW 1 budgetW).map (fun e => e.amount) :
        Multiset Int) = (ownerExpensesInRange dbBudgetW budgetW : Multiset Int) ∧
    ((budgetQueryExpenses dbBudgetW 1 budgetW).map (fun e => e.amount)).sum =
      (ownerExpensesInRange dbBudgetW budgetW).sum :=
  budget_query_comprehension_agree dbBudgetW 1 budgetW (by decide)

/-- C2 (amended): `check_thresholds` emits exactly when the signed overage
`total - threshold` is non-zero (both signs) AND no unread notification with
the identical message already exists; a total equal to the threshold emits
nothing; the emitted message embeds the threshold and the overage value. -/
theorem check_thresholds_emits_iff (db : DB) (uid : Nat) (a : Alert)
    (h : (db.alerts.filter (fun x => x.user_id == uid)).head? = some a) :
    (totalExpenses db uid - a.threshold = 0 →
      check_thresholds db uid = some (db, none)) ∧
    (totalExpenses db uid - a.threshold ≠ 0 →
      unreadDuplicates db uid
          (thresholdMessage a.threshold (totalExpenses db uid - a.threshold)) = [] →
      check_thresholds db uid =
        some (addNotification db uid
            (thresholdMessage a.threshold (totalExpenses db uid - a.threshold)),
          some (thresholdMessage a.threshold (totalExpenses db uid - a.threshold)))) ∧
    (totalExpenses db uid - a.threshold ≠ 0 →
      unreadDuplicates db uid
          (thresholdMessage a.threshold (totalExpenses db uid - a.threshold)) ≠ [] →
      check_thresholds db uid = some (db, none)) ∧
    (∃ s1 s2 s3,
      thresholdMessage a.threshold (totalExpenses db uid - a.threshold) =
        s1 ++ toString a.threshold ++ s2 ++
          toString (totalExpenses db uid - a.threshold) ++ s3) := by
  refine ⟨fun h0 => ?_, fun hne hfresh => ?_, fun hne hdup => ?_, ?_⟩
  · rw [check_thresholds_eq db uid a h]
    simp [h0]
  · rw [check_thresholds_eq db uid a h, if_pos hne,
      emitNotification_fresh _ _ _ hfresh]
  · rw [check_thresholds_eq db uid a h, if_pos hne,
      emitNotification_dup _ _ _ hdup]
  · exact ⟨"Your alert threshold of ", " has been exceeded by ", ".00", by
      simp [thresholdMessage, format2f, String.append_assoc]⟩

/-- C2 counterexample: the overage is non-zero, yet `check_thresholds` creates
no notification row and pushes nothing, because an unread notification with
the identical message already exists — so "emits exactly when the overage is
non-zero" is false as stated. -/
theorem check_thresholds_claim_counterexample :
    (dbThreshDup.alerts.filter (fun x => x.user_id == 1)).head? =
        some ⟨1, 10, 1⟩ ∧
    totalExpenses dbThreshDup 1 - 10 ≠ 0 ∧
    check_thresholds dbThreshDup 1 = some (dbThreshDup, none) := by
  decide

/-- Witness for C2 at a concrete state: even an under-threshold total (overage
-6) produces a message, which is persisted and pushed. -/
theorem check_thresholds_emits_witness :
    check_thresholds dbThreshUnder 1 =
      some (addNotification dbThreshUnder 1
          (thresholdMessage 10 (totalExpenses dbThreshUnder 1 - 10)),
        some (thresholdMessage 10 (totalExpenses dbThreshUnder 1 - 10))) :=
  (check_thresholds_emits_iff dbThreshUnder 1 ⟨1, 10, 1⟩ (by decide)).2.1
    (by decide) (by decide)

/-- C1 (amended): `check_budget` creates and pushes a notification exactly when
the in-range expense sum strictly exceeds `amount_limit` AND no unread
notification with the identical message already exists; when the sum is within
the limit, nothing is created and nothing is pushed. -/
theorem check_budget_notifies_iff (db : DB) (uid : Nat) (b : Budget)
    (h : (db.budgets.filter (fun x => x.user_id == uid)).head? = some b) :
    ((ownerExpensesInRange db b).sum ≤ b.amount_limit →
      check_budget db uid = some (db, none)) ∧
    (b.amount_limit < (ownerExpensesInRange db b).sum →
      unreadDuplicates db uid
          (budgetMessage b.amount_limit
            ((ownerExpensesInRange db b).sum - b.amount_limit)) = [] →
      check_budget db uid =
        some (addNotification db uid
            (budgetMessage b.amount_limit
              ((ownerExpensesInRange db b).sum - b.amount_limit)),
          some (budgetMessage b.amount_limit
            ((ownerExpensesInRange db b).sum - b.amount_limit)))) ∧
    (b.amount_limit < (ownerExpensesInRange db b).sum →
      unreadDuplicates db uid
          (budgetMessage b.amount_limit
            ((ownerExpensesInRange db b).sum - b.amount_limit)) ≠ [] →
      check_budget db uid = some (db, none)) := by
  have habs : b.amount_limit < (ownerExpensesInRange db b).sum →
      |b.amount_limit - (ownerExpensesInRange db b).sum| =
        (ownerExpensesInRange db b).sum - b.amount_limit := by
    intro hlt
    rw [abs_of_neg (by omega), neg_sub]
  refine ⟨fun hle => ?_, fun hlt hfresh => ?_, fun hlt hdup => ?_⟩
  · rw [check_budget_eq db uid b h, if_neg (by omega)]
  · rw [check_budget_eq db uid b h, if_pos (by omega), habs hlt,
      emitNotification_fresh _ _ _ hfresh]
  · rw [check_budget_eq db uid b h, if_pos (by omega), habs hlt,
      emitNotification_dup _ _ _ hdup]

/-- C1 counterexample: the in-range sum (30) strictly exceeds the limit (10),
yet `check_budget` creates no notification row and pushes nothing, because an
unread notification with the identical message already exists — so
"a notification is produced iff the sum exceeds the limit" is false as
stated. -/
theorem check_budget_claim_counterexample :
    (dbBudgetDup.budgets.filter (fun x => x.user_id == 1)).head? =
        some ⟨1, 1, 10, ⟨2024, 1, 1⟩, ⟨2024, 12, 31⟩⟩ ∧
    (10 : Int) <
      (ownerExpensesInRange dbBudgetDup
        ⟨1, 1, 10, ⟨2024, 1, 1⟩, ⟨2024, 12, 31⟩⟩).sum ∧
    check_budget dbBudgetDup 1 = some (dbBudgetDup, none) := by
  decide

/-- Witness for C1 at a concrete state: with no prior notification the
over-limit budget creates exactly one unread row and pushes its message, and
an under-limit user state is left untouched. -/
theorem check_budget_notifies_witness :
    check_budget dbBudgetW 1 =
      some (addNotification dbBudgetW 1
          (budgetMessage 10 ((ownerExpensesInRange dbBudgetW budgetW).sum - 10)),
        some (budgetMessage 10
          ((ownerExpensesInRange dbBudgetW budgetW).sum - 10))) :=
  (check_budget_notifies_iff dbBudgetW 1 budgetW (by decide)).2.1
    (by decide) (by decide)

/-- A freshly inserted notification row is an unread duplicate of its own
message in the resulting state. -/
theorem unreadDuplicates_addNotification_ne_nil (db : DB) (uid : Nat) (m : String) :
    unreadDuplicates (addNotification db uid m) uid m ≠ [] := by
  apply List.ne_nil_of_mem
    (a := { id := db.nextNotificationId, user_id := uid,
            message := m, is_read := false })
  apply List.mem_filter.mpr
  refine ⟨?_, by simp⟩
  rw [addNotification_notifications]
  exact List.mem_append_right _ (List.mem_singleton_self _)

/-- Re-running `check_thresholds` on the state it produced is a no-op: the
state is unchanged and nothing is pushed. -/
theorem check_thresholds_second_run (db : DB) (uid : Nat) (db1 : DB)
    (p1 : Option String) (h : check_thresholds db uid = some (db1, p1)) :
    check_thresholds db1 uid = some (db1, none) := by
  cases hh : (db.alerts.filter (fun x => x.user_id == uid)).head? with
  | none =>
      have hnone : check_thresholds db uid = none := by
        unfold check_thresholds
        rw [hh]
      rw [hnone] at h
      cases h
  | some a =>
      rw [check_thresholds_eq db uid a hh] at h
      by_cases hadh : totalExpenses db uid - a.threshold ≠ 0
      · rw [if_pos hadh] at h
        by_cases hdup : unreadDuplicates db uid
            (thresholdMessage a.threshold (totalExpenses db uid - a.threshold)) = []
        · rw [emitNotification_fresh _ _ _ hdup] at h
          simp only [Option.some.injEq, Prod.mk.injEq] at h
          obtain ⟨h1, h2⟩ := h
          subst h1
          have hh2 : ((addNotification db uid
              (thresholdMessage a.threshold (totalExpenses db uid - a.threshold))).alerts.filter
                (fun x => x.user_id == uid)).head? = some a := by
            rw [addNotification_alerts]
            exact hh
          rw [check_thresholds_eq _ uid a hh2]
          have htot : totalExpenses (addNotification db uid
              (thresholdMessage a.threshold (totalExpenses db uid - a.threshold))) uid =
              totalExpenses db uid := by
            unfold totalExpenses
            rw [addNotification_expenses]
          rw [htot, if_pos hadh,
            emitNotification_dup _ _ _ (unreadDuplicates_addNotification_ne_nil db uid _)]
        · rw [emitNotification_dup _ _ _ hdup] at h
          simp only [Option.some.injEq, Prod.mk.injEq] at h
          obtain ⟨h1, h2⟩ := h
          subst h1
          rw [check_thresholds_eq db uid a hh, if_pos hadh,
            emitNotification_dup _ _ _ hdup]
      · rw [if_neg hadh] at h
        simp only [Option.some.injEq, Prod.mk.injEq] at h
        obtain ⟨h1, h2⟩ := h
        subst h1
        rw [check_thresholds_eq db uid a hh, if_neg hadh]

/-- Re-running `check_budget` on the state it produced is a no-op: the state
is unchanged and nothing is pushed. -/
theorem check_budget_second_run (db : DB) (uid : Nat) (db1 : DB)
    (p1 : Option String) (h : check_budget db uid = some (db1, p1)) :
    check_budget db1 uid = some (db1, none) := by
  cases hh : (db.budgets.filter (fun x => x.user_id == uid)).head? with
  | none =>
      have hnone : check_budget db uid = none := by
        unfold check_budget
        rw [hh]
      rw [hnone] at h
      cases h
  | some b =>
      rw [check_budget_eq db uid b hh] at h
      by_cases hrem : b.amount_limit - (ownerExpensesInRange db b).sum < 0
      · rw [if_pos hrem] at h
        by_cases hdup : unreadDuplicates db uid
            (budgetMessage b.amount_limit
              |b.amount_limit - (ownerExpensesInRange db b).sum|) = []
        · rw [emitNotification_fresh _ _ _ hdup] at h
          simp only [Option.some.injEq, Prod.mk.injEq] at h
          obtain ⟨h1, h2⟩ := h
          subst h1
          have hh2 : ((addNotification db uid
              (budgetMessage b.amount_limit
                |b.amount_limit - (ownerExpensesInRange db b).sum|)).budgets.filter
                (fun x => x.user_id == uid)).head? = some b := by
            rw [addNotification_budgets]
            exact hh
          rw [check_budget_eq _ uid b hh2]
          have hexp : ownerExpensesInRange (addNotification db uid
              (budgetMessage b.amount_limit
                |b.amount_limit - (ownerExpensesInRange db b).sum|)) b =
              ownerExpensesInRange db b := by
            unfold ownerExpensesInRange
            rw [addNotification_expenses]
          rw [hexp, if_pos hrem,
            emitNotification_dup _ _ _ (unreadDuplicates_addNotification_ne_nil db uid _)]
        · rw [emitNotification_dup _ _ _ hdup] at h
          simp only [Option.some.injEq, Prod.mk.injEq] at h
          obtain ⟨h1, h2⟩ := h
          subst h1
          rw [check_budget_eq db uid b hh, if_pos hrem,
            emitNotification_dup _ _ _ hdup]
      · rw [if_neg hrem] at h
        simp only [Option.some.injEq, Prod.mk.injEq] at h
        obtain ⟨h1, h2⟩ := h
        subst h1
        rw [check_budget_eq db uid b hh, if_neg hrem]

/-- C3: a new Notification row is persisted iff no row with the same user,
byte-identical message and `is_read = false` exists; consequently re-running
either evaluator on the state it produced is a no-op (idempotence under
unchanged input). -/
theorem notification_dedup_idempotent (db : DB) (uid : Nat) (m : String) :
    ((∀ n ∈ db.notifications,
        ¬(n.user_id = uid ∧ n.message = m ∧ n.is_read = false)) →
      emitNotification db uid m = (addNotification db uid m, some m)) ∧
    ((∃ n ∈ db.notifications,
        n.user_id = uid ∧ n.message = m ∧ n.is_read = false) →
      emitNotification db uid m = (db, none)) ∧
    (∀ db1 p1, check_thresholds db uid = some (db1, p1) →
      check_thresholds db1 uid = some (db1, none)) ∧
    (∀ db1 p1, check_budget db uid = some (db1, p1) →
      check_budget db1 uid = some (db1, none)) := by
  refine ⟨fun hfresh => ?_, fun hdup => ?_,
    fun db1 p1 h => check_thresholds_second_run db uid db1 p1 h,
    fun db1 p1 h => check_budget_second_run db uid db1 p1 h⟩
  · apply emitNotification_fresh
    rw [unreadDuplicates, List.filter_eq_nil_iff]
    intro n hn
    have := hfresh n hn
    simp only [Bool.and_eq_true, beq_iff_eq]
    tauto
  · obtain ⟨n, hn, hu, hm, hr⟩ := hdup
    apply emitNotification_dup
    apply List.ne_nil_of_mem (a := n)
    apply List.mem_filter.mpr
    exact ⟨hn, by simp [hu, hm, hr]⟩

/-- Witness for C3 at concrete states: a fresh message is persisted; a message
with an existing unread duplicate is suppressed; and both evaluators are
no-ops when re-run on the state they produced. -/
theorem notification_dedup_idempotent_witness :
    emitNotification dbThreshUnder 1 "hello" =
      (addNotification dbThreshUnder 1 "hello", some "hello") ∧
    emitNotification dbThreshDup 1 (thresholdMessage 10 20) = (dbThreshDup, none) ∧
    check_thresholds (addNotification dbThreshUnder 1 (thresholdMessage 10 (-6))) 1 =
      some (addNotification dbThreshUnder 1 (thresholdMessage 10 (-6)), none) ∧
    check_budget (addNotification dbBudgetW 1 (budgetMessage 10 20)) 1 =
      some (addNotification dbBudgetW 1 (budgetMessage 10 20), none) :=
  ⟨(notification_dedup_idempotent dbThreshUnder 1 "hello").1 (by decide),
   (notification_dedup_idempotent dbThreshDup 1 (thresholdMessage 10 20)).2.1
     (by decide),
   (notification_dedup_idempotent dbThreshUnder 1 "x").2.2.1
     (addNotification dbThreshUnder 1 (thresholdMessage 10 (-6)))
     (some (thresholdMessage 10 (-6))) (by decide),
   (notification_dedup_idempotent dbBudgetW 1 "x").2.2.2
     (addNotification dbBudgetW 1 (budgetMessage 10 20))
     (some (budgetMessage 10 20)) (by decide)⟩

/-- Reduction of `create_alert` when no duplicate-threshold alert exists. -/
theorem create_alert_fresh (db : DB) (uid : Nat) (t : Int)
    (h : db.alerts.filter (fun a => a.user_id == uid && a.threshold == t) = []) :
    create_alert db uid t =
      ({ db with alerts := db.alerts ++ [⟨db.nextAlertId, t, uid⟩],
                 nextAlertId := db.nextAlertId + 1 },
        .ok (⟨db.nextAlertId, t, uid⟩, 201)) := by
  simp [create_alert, h]

/-- Reduction of `create_alert` when a duplicate-threshold alert exists. -/
theorem create_alert_dup (db : DB) (uid : Nat) (t : Int)
    (h : db.alerts.filter (fun a => a.user_id == uid && a.threshold == t) ≠ []) :
    create_alert db uid t = (db, .error ⟨400, duplicateAlertDetail⟩) := by
  unfold create_alert
  cases hh : (db.alerts.filter (fun a => a.user_id == uid && a.threshold == t)).head? with
  | none => exact absurd (List.head?_eq_none_iff.mp hh) h
  | some a => rfl

/-- C5: creating an alert with a threshold the user does not yet have succeeds
with 201 and persists it; a second alert with the same threshold for the same
user is rejected with 400 and leaves the alert table unchanged. -/
theorem create_alert_unique_threshold (db : DB) (uid : Nat) (t : Int) :
    ((∀ a ∈ db.alerts, ¬(a.user_id = uid ∧ a.threshold = t)) →
      create_alert db uid t =
        ({ db with alerts := db.alerts ++ [⟨db.nextAlertId, t, uid⟩],
                   nextAlertId := db.nextAlertId + 1 },
          .ok (⟨db.nextAlertId, t, uid⟩, 201))) ∧
    ((∃ a ∈ db.alerts, a.user_id = uid ∧ a.threshold = t) →
      create_alert db uid t = (db, .error ⟨400, duplicateAlertDetail⟩)) ∧
    ((∀ a ∈ db.alerts, ¬(a.user_id = uid ∧ a.threshold = t)) →
      create_alert (create_alert db uid t).1 uid t =
        ((create_alert db uid t).1, .error ⟨400, duplicateAlertDetail⟩)) := by
  have hforall : (∀ a ∈ db.alerts, ¬(a.user_id = uid ∧ a.threshold = t)) →
      db.alerts.filter (fun a => a.user_id == uid && a.threshold == t) = [] := by
    intro hno
    rw [List.filter_eq_nil_iff]
    intro a ha
    have := hno a ha
    simp only [Bool.and_eq_true, beq_iff_eq]
    tauto
  refine ⟨fun hno => create_alert_fresh db uid t (hforall hno),
    fun hdup => ?_, fun hno => ?_⟩
  · obtain ⟨a, ha, hu, ht⟩ := hdup
    apply create_alert_dup
    apply List.ne_nil_of_mem (a := a)
    exact List.mem_filter.mpr ⟨ha, by simp [hu, ht]⟩
  · rw [create_alert_fresh db uid t (hforall hno)]
    apply create_alert_dup
    apply List.ne_nil_of_mem (a := (⟨db.nextAlertId, t, uid⟩ : Alert))
    apply List.mem_filter.mpr
    refine ⟨?_, by simp⟩
    show _ ∈ db.alerts ++ [_]
    exact List.mem_append_right _ (List.mem_singleton_self _)

/-- Witness for C5 at a concrete state: creation succeeds on a user with no
alert at threshold 10, and repeating it is rejected with 400, the table
unchanged. -/
theorem create_alert_unique_threshold_witness :
    create_alert dbNoRows 1 10 =
      ({ dbNoRows with alerts := dbNoRows.alerts ++ [⟨dbNoRows.nextAlertId, 10, 1⟩],
                       nextAlertId := dbNoRows.nextAlertId + 1 },
        .ok (⟨dbNoRows.nextAlertId, 10, 1⟩, 201)) ∧
    create_alert (create_alert dbNoRows 1 10).1 1 10 =
      ((create_alert dbNoRows 1 10).1, .error ⟨400, duplicateAlertDetail⟩) :=
  ⟨(create_alert_unique_threshold dbNoRows 1 10).1 (by decide),
   (create_alert_unique_threshold dbNoRows 1 10).2.2 (by decide)⟩

/-- C4: registration with an existing username or email fails with 400 and
creates nothing; otherwise it creates the User, a "Debt" Category owned by the
new user, and a zero-limit CategoryBudget for that category spanning the
current calendar month.  The second hypothesis of the success branch is the
auto-increment invariant: no existing CategoryBudget row references the not
yet assigned category id. -/
theorem register_duplicates_and_defaults (db : DB) (today : Date)
    (un em pw : String) :
    ((∃ u ∈ db.users, u.username = un ∨ u.email = em) →
      (register db today un em pw).1 = db ∧
      ∃ d, (register db today un em pw).2 = .error ⟨400, d⟩) ∧
    ((∀ u ∈ db.users, u.username ≠ un ∧ u.email ≠ em) →
      (∀ cb ∈ db.categoryBudgets, cb.category_id ≠ db.nextCategoryId) →
      register db today un em pw =
        ({ db with
            users := db.users ++ [⟨db.nextUserId, un, em, hash_password pw⟩],
            categories := db.categories ++
              [⟨db.nextCategoryId, "Debt", "For all debts", db.nextUserId⟩],
            categoryBudgets := db.categoryBudgets ++
              [⟨db.nextCategoryBudgetId, db.nextCategoryId, 0, monthStart today,
                monthEnd today, db.nextUserId, "active"⟩],
            nextUserId := db.nextUserId + 1,
            nextCategoryId := db.nextCategoryId + 1,
            nextCategoryBudgetId := db.nextCategoryBudgetId + 1 },
          .ok "Registered successfully")) := by
  constructor
  · rintro ⟨u, hu, hcase⟩
    cases hun : (db.users.filter (fun x => x.username == un)).head? with
    | some w =>
        have : register db today un em pw =
            (db, .error ⟨400, "Username already registered"⟩) := by
          unfold register
          rw [hun]
        rw [this]
        exact ⟨rfl, "Username already registered", rfl⟩
    | none =>
        have hunil := List.head?_eq_none_iff.mp hun
        have hne : u.username ≠ un := by
          intro heq
          have : u ∈ db.users.filter (fun x => x.username == un) :=
            List.mem_filter.mpr ⟨hu, by simp [heq]⟩
          rw [hunil] at this
          cases this
        have hem : u.email = em := by tauto
        cases hemq : (db.users.filter (fun x => x.email == em)).head? with
        | some w =>
            have : register db today un em pw =
                (db, .error ⟨400, "Email already registered"⟩) := by
              unfold register
              rw [hun, hemq]
            rw [this]
            exact ⟨rfl, "Email already registered", rfl⟩
        | none =>
            have hemnil := List.head?_eq_none_iff.mp hemq
            have : u ∈ db.users.filter (fun x => x.email == em) :=
              List.mem_filter.mpr ⟨hu, by simp [hem]⟩
            rw [hemnil] at this
            cases this
  · intro hno hfresh
    have h1 : db.users.filter (fun x => x.username == un) = [] := by
      rw [List.filter_eq_nil_iff]
      intro x hx
      simp only [beq_iff_eq]
      exact (hno x hx).1
    have h2 : db.users.filter (fun x => x.email == em) = [] := by
      rw [List.filter_eq_nil_iff]
      intro x hx
      simp only [beq_iff_eq]
      exact (hno x hx).2
    have h3 : (db.users ++ [(⟨db.nextUserId, un, em, hash_password pw⟩ : User)]).filter
        (fun x => x.username == un && x.hashed_password == hash_password pw) =
        [⟨db.nextUserId, un, em, hash_password pw⟩] := by
      rw [List.filter_append]
      have hl : db.users.filter
          (fun x => x.username == un && x.hashed_password == hash_password pw) = [] := by
        rw [List.filter_eq_nil_iff]
        intro x hx
        simp only [Bool.and_eq_true, beq_iff_eq]
        intro hcontra
        exact (hno x hx).1 hcontra.1
      rw [hl]
      simp
    have h4 : db.categoryBudgets.filter (fun cb =>
        cb.category_id == db.nextCategoryId && cb.user_id == db.nextUserId &&
        cb.status == "active" && Date.le cb.start_date (monthEnd today) &&
        Date.le (monthStart today) cb.end_date) = [] := by
      rw [List.filter_eq_nil_iff]
      intro cb hcb
      simp only [Bool.and_eq_true, beq_iff_eq]
      intro hcontra
      exact hfresh cb hcb hcontra.1.1.1.1
    simp [register, h1, h2, h3, h4]

/-- Witness for C4 at concrete states: registering a fresh account on a state
holding only user "alice" creates the user plus the default category and
month budget; registering "alice" again is rejected with a 400 and the state
is unchanged. -/
theorem register_duplicates_and_defaults_witness :
    register dbNoRows ⟨2024, 6, 15⟩ "bob" "b@x.com" "pw" =
      ({ dbNoRows with
          users := dbNoRows.users ++
            [⟨dbNoRows.nextUserId, "bob", "b@x.com", hash_password "pw"⟩],
          categories := dbNoRows.categories ++
            [⟨dbNoRows.nextCategoryId, "Debt", "For all debts", dbNoRows.nextUserId⟩],
          categoryBudgets := dbNoRows.categoryBudgets ++
            [⟨dbNoRows.nextCategoryBudgetId, dbNoRows.nextCategoryId, 0,
              monthStart ⟨2024, 6, 15⟩, monthEnd ⟨2024, 6, 15⟩,
              dbNoRows.nextUserId, "active"⟩],
          nextUserId := dbNoRows.nextUserId + 1,
          nextCategoryId := dbNoRows.nextCategoryId + 1,
          nextCategoryBudgetId := dbNoRows.nextCategoryBudgetId + 1 },
        .ok "Registered successfully") ∧
    (register dbNoRows ⟨2024, 6, 15⟩ "alice" "fresh@x.com" "pw").1 = dbNoRows ∧
    ∃ d, (register dbNoRows ⟨2024, 6, 15⟩ "alice" "fresh@x.com" "pw").2 =
      .error ⟨400, d⟩ :=
  ⟨(register_duplicates_and_defaults dbNoRows ⟨2024, 6, 15⟩ "bob" "b@x.com" "pw").2
      (by decide) (by decide),
   ((register_duplicates_and_defaults dbNoRows ⟨2024, 6, 15⟩ "alice" "fresh@x.com"
      "pw").1 (by decide)).1,
   ((register_duplicates_and_defaults dbNoRows ⟨2024, 6, 15⟩ "alice" "fresh@x.com"
      "pw").1 (by decide)).2⟩

/-- C7: an invalid refresh token (verification failure or missing subject) or
an unknown user yields 401 and no token; a valid token of an existing user
yields a fresh access token with token_type "bearer". -/
theorem refresh_token_behavior (verify : String → Except Unit RefreshPayload)
    (db : DB) (tok : String) :
    (verify tok = .error () →
      get_refresh_token verify db tok = .error ⟨401, "Invalid refresh token"⟩) ∧
    (∀ p, verify tok = .ok p → p.sub = none →
      get_refresh_token verify db tok =
        .error ⟨401, "Invalid refresh token payload"⟩) ∧
    (∀ p un, verify tok = .ok p → p.sub = some un →
      db.users.filter (fun u => u.username == un) = [] →
      get_refresh_token verify db tok = .error ⟨401, "User not found"⟩) ∧
    (∀ p un u, verify tok = .ok p → p.sub = some un →
      (db.users.filter (fun u => u.username == un)).head? = some u →
      get_refresh_token verify db tok =
        .ok ⟨create_access_token un, "bearer"⟩) := by
  refine ⟨fun hv => ?_, fun p hv hs => ?_, fun p un hv hs hq => ?_,
    fun p un u hv hs hq => ?_⟩
  · simp [get_refresh_token, hv]
  · simp [get_refresh_token, hv, hs]
  · simp [get_refresh_token, hv, hs, hq]
  · simp [get_refresh_token, hv, hs, hq]

/-- Witness for C7 at a concrete state: the invalid token "bad" yields 401,
and the valid token "good" of existing user "alice" yields a bearer access
token. -/
theorem refresh_token_behavior_witness :
    get_refresh_token verifyW dbNoRows "bad" =
      .error ⟨401, "Invalid refresh token"⟩ ∧
    get_refresh_token verifyW dbNoRows "good" =
      .ok ⟨create_access_token "alice", "bearer"⟩ :=
  ⟨(refresh_token_behavior verifyW dbNoRows "bad").1 (by rfl),
   (refresh_token_behavior verifyW dbNoRows "good").2.2.2 ⟨some "alice"⟩ "alice"
     ⟨1, "alice", "a@x.com", "h1"⟩ (by rfl) (by rfl) (by rfl)⟩

/-- After `cascadeDeleteUser` no owned row of the deleted user remains. -/
theorem noOwnedRows_cascadeDeleteUser (db : DB) (uid : Nat) :
    noOwnedRows (cascadeDeleteUser db uid) uid :=
  ⟨fun _ he => bne_iff_ne.mp (List.mem_filter.mp he).2,
   fun _ hb => bne_iff_ne.mp (List.mem_filter.mp hb).2,
   fun _ hc => bne_iff_ne.mp (List.mem_filter.mp hc).2,
   fun _ ha => bne_iff_ne.mp (List.mem_filter.mp ha).2,
   fun _ hn => bne_iff_ne.mp (List.mem_filter.mp hn).2,
   fun _ hgm => bne_iff_ne.mp (List.mem_filter.mp hgm).2,
   fun _ hge => bne_iff_ne.mp (List.mem_filter.mp hge).2,
   fun _ hes => bne_iff_ne.mp (List.mem_filter.mp hes).2⟩

/-- The group-deleting fold of `delete_account` touches only the groups
table. -/
theorem foldl_groupFilter_users (l : List GroupMember) (d : DB) :
    (l.foldl (fun d gm =>
      { d with groups := d.groups.filter (fun g => g.id != gm.id) }) d).users =
    d.users := by
  induction l generalizing d with
  | nil => rfl
  | cons gm t ih =>
      rw [List.foldl_cons]
      exact ih _

/-- C8: both deletion paths — the admin `DELETE /admin/users/{id}` handler and
the authenticated `DELETE /auth/account` handler — leave no row owned by the
deleted user in any of the Expense, Budget, Category, Alert, Notification,
GroupMember, GroupExpense, ExpenseSplit tables. -/
theorem user_deletion_cascade_complete (db : DB) :
    (∀ uid db1, delete_user db uid = .ok db1 → noOwnedRows db1 uid) ∧
    (∀ u db2, uniqueUsernames db → u ∈ db.users →
      delete_account db u = some db2 → noOwnedRows db2 u.id) := by
  constructor
  · intro uid db1 h
    unfold delete_user at h
    split at h
    · cases h
    · simp only [Except.ok.injEq] at h
      subst h
      exact noOwnedRows_cascadeDeleteUser _ uid
  · intro u db2 huniq humem h
    simp only [delete_account] at h
    split at h
    · cases h
    next found hfound =>
      split at h
      · cases h
      next target htarget =>
        simp only [Option.some.injEq] at h
        subst h
        have husers : ∀ d : DB,
            ((db.groupMembers.filter
              (fun gm => gm.user_id == u.id && gm.role == "admin")).foldl
                (fun d gm =>
                  { d with groups := d.groups.filter (fun g => g.id != gm.id) })
                d).users = d.users :=
          fun d => foldl_groupFilter_users _ d
        have hfmem := List.mem_filter.mp (mem_of_head?_some hfound)
        have hfound_mem : found ∈ db.users := by
          rw [husers db] at hfmem
          exact hfmem.1
        have hfound_eq : found = u := by
          apply huniq found hfound_mem u humem
          have := hfmem.2
          simp only [Bool.and_eq_true, beq_iff_eq] at this
          exact this.1
        have htmem := List.mem_filter.mp (mem_of_head?_some htarget)
        have htid : target.id = found.id := by
          have := htmem.2
          simpa using this
        rw [htid, hfound_eq]
        exact noOwnedRows_cascadeDeleteUser _ u.id

/-- Witness for C8 at a concrete state, exercising both deletion paths. -/
theorem user_deletion_cascade_complete_witness :
    noOwnedRows
      ({ dbOwned with
          users := [⟨2, "bob", "b@x.com", "h2"⟩],
          expenses := [⟨2, 2, 9, ⟨2024, 6, 16⟩⟩],
          alerts := [⟨2, 11, 2⟩], budgets := [], categories := [],
          notifications := [],
          groupMembers := [⟨8, 3, 2, "member"⟩],
          groupExpenses := [], expenseSplits := [⟨2, 1, 2, 6⟩] }) 1 ∧
    noOwnedRows
      ({ dbOwned with
          users := [⟨2, "bob", "b@x.com", "h2"⟩],
          expenses := [⟨2, 2, 9, ⟨2024, 6, 16⟩⟩],
          alerts := [⟨2, 11, 2⟩], budgets := [], categories := [],
          notifications := [],
          groups := [⟨3, "team"⟩],
          groupMembers := [⟨8, 3, 2, "member"⟩],
          groupExpenses := [], expenseSplits := [⟨2, 1, 2, 6⟩] }) 1 :=
  ⟨(user_deletion_cascade_complete dbOwned).1 1 _ (by rfl),
   (user_deletion_cascade_complete dbOwned).2 ⟨1, "alice", "a@x.com", "h1"⟩ _
     (by unfold uniqueUsernames; decide) (by decide) (by rfl)⟩

/-- C6: `delete_account` filters `Group.id == group_member.id` — the
membership row's own primary key — instead of `group_member.group_id`.  On
the failing input, alice administers group 2 via membership row 5, yet after
deletion group 2 (the one the claim says is deleted) survives and group 5
(unrelated to her) is gone. -/
theorem delete_account_deletes_wrong_group :
    (⟨5, 2, 1, "admin"⟩ : GroupMember) ∈ dbWrongGroup.groupMembers ∧
    (⟨2, "team"⟩ : Group) ∈ dbWrongGroup.groups ∧
    (delete_account dbWrongGroup aliceAdmin).map DB.groups =
      some [⟨2, "team"⟩] := by
  decide

end ExpenseTracker
